import Mathlib

/-!
Verification of the enclave trusted-clock core (mystikos Rust port).

Source files embedded here:
  - src/tools/myst/enc/clock/src/lib.rs : constants NANO_IN_SECOND and
    MICRO_IN_SECOND, the repr(C) struct clock_ctrl, the FFI entry stub
    myst_setup_clock (always returns -1, takes a *const pointer and performs
    no writes), and the stub guard _check (its overflow branch is empty).
  - src/tools/myst/enc/clock.rs : a second, identical declaration of
    clock_ctrl with explicit i64/u64/i32 field types.

The repository's setup entry point is the myst_setup_clock stub above: it
is present in the sources and unconditionally returns -1 without writing,
so every property about setup is settled against that stub. The tick
operation and the error taxonomy are not implemented anywhere in the
sources; they are modelled from the specification (sections 4.2, 4.3, 7)
and marked `Modelled from the spec:` in their doc comments. Machine
integers are embedded as Int/Nat with the i64 bound made explicit where
overflow matters.
-/

/-- Largest value representable as a signed 64-bit integer, 2^63 - 1. -/
def I64_MAX : Int := 9223372036854775807

/-- Constant from src/tools/myst/enc/clock/src/lib.rs line 7:
`pub const NANO_IN_SECOND: c_int = 1000000000;`. -/
def NANO_IN_SECOND : Int := 1000000000

/-- Constant from src/tools/myst/enc/clock/src/lib.rs line 8:
`pub const MICRO_IN_SECOND: c_int = 1000000;`. -/
def MICRO_IN_SECOND : Int := 1000000

/-- Embedding of the repr(C) struct `clock_ctrl` declared identically in
src/tools/myst/enc/clock/src/lib.rs (c_long/c_ulong/c_int on the 64-bit
Linux enclave target) and src/tools/myst/enc/clock.rs (i64/u64/i32).
Fields in declaration order: realtime0 i64, monotime0 i64, now i64,
interval u64, done i32. -/
structure clock_ctrl where
  realtime0 : Int
  monotime0 : Int
  now : Int
  interval : Nat
  done : Int
  deriving DecidableEq

/-- Field layout descriptor of the source struct `clock_ctrl`, read off the
repr(C) declaration in src/tools/myst/enc/clock/src/lib.rs lines 10-17:
each entry is (field name, bit width, is-signed), in declaration order. -/
def clock_ctrl_fields : List (String × Nat × Bool) :=
  [("realtime0", 64, true),
   ("monotime0", 64, true),
   ("now", 64, true),
   ("interval", 64, false),
   ("done", 32, true)]

/-- Layout enumerated by the spec (section 6, memory layout note): two
64-bit signed baselines, one 64-bit signed now, one 64-bit unsigned
interval, one 32-bit signed status/done flag, in that order. This follows
the spec's words, to be compared with `clock_ctrl_fields`. -/
def spec_clock_ctrl_fields : List (String × Nat × Bool) :=
  [("realtime0", 64, true),
   ("monotime0", 64, true),
   ("now", 64, true),
   ("interval", 64, false),
   ("done", 32, true)]

/-- Embedding of the FFI entry point from src/tools/myst/enc/clock/src/lib.rs
lines 19-22:
`pub extern "C" fn myst_setup_clock(ctrl: *const clock_ctrl) -> c_int { -1 }`.
The function receives the state through a read-only (*const) pointer and its
body is the literal -1, so in state-passing form it returns -1 together with
the state it was given, unchanged. -/
def myst_setup_clock (ctrl : clock_ctrl) : Int × clock_ctrl :=
  (-1, ctrl)

/-- Error taxonomy of the clock core. Modelled from the spec: section 7
names the four failure kinds InvalidInterval, AlreadyInitialized,
NotInitialized and ClockOverflow; no error type exists in the sources. -/
inductive ClockError where
  | InvalidInterval
  | AlreadyInitialized
  | NotInitialized
  | ClockOverflow
  deriving DecidableEq

/-- Embedding of the guard stub from src/tools/myst/enc/clock/src/lib.rs
lines 24-29:
`fn _check(overflowed: bool) { if !overflowed { return; } }` —
the function returns unit on the false branch and falls through to a normal
unit return on the true branch (the branch body is empty). -/
def _check (overflowed : Bool) : Unit :=
  if !overflowed then () else ()

/-- Overflow Guard as the spec describes it. Modelled from the spec:
section 4.3 `check_overflow(overflowed: bool) -> Result<(), ClockError>`
returns success on false and fails with ClockOverflow on true; the source
only contains the stub `_check` above, which never fails. -/
def check_overflow (overflowed : Bool) : Except ClockError Unit :=
  if overflowed then Except.error ClockError.ClockOverflow else Except.ok ()

/-- Clock State of the Controller. Modelled from the spec: section 3 gives
the fields realtime0, monotime0, now (i64), interval (u64) and done, and an
initialized/calibrated flag is implied by the NotInitialized guard of
section 4.2; no controller state logic exists in the sources. -/
structure ClockState where
  realtime0 : Int
  monotime0 : Int
  now : Int
  interval : Nat
  done : Bool
  initialized : Bool
  deriving DecidableEq

namespace Clock

/-- Periodic advance. Modelled from the spec: section 4.2 tick fails with
NotInitialized before setup, computes candidate = now + interval with
overflow-checked signed 64-bit addition routed through the Overflow Guard
(ClockOverflow leaves now unchanged, no partial update), otherwise replaces
now by candidate and returns the new now. -/
def tick (s : ClockState) : Except ClockError Int × ClockState :=
  if s.initialized then
    let candidate : Int := s.now + (s.interval : Int)
    match check_overflow (decide (I64_MAX < candidate)) with
    | Except.ok _ => (Except.ok candidate, { s with now := candidate })
    | Except.error e => (Except.error e, s)
  else (Except.error ClockError.NotInitialized, s)

/-- Runs n successive tick calls, stopping at the first failure. -/
def tickN : Nat → ClockState → Except ClockError ClockState
  | 0, s => Except.ok s
  | Nat.succ n, s =>
    match tick s with
    | (Except.ok _, t) => tickN n t
    | (Except.error e, _) => Except.error e

/-- Inversion of a successful tick: the state was initialized, the addition
did not pass the i64 bound, the returned value is now + interval, and the
new state only replaced now by that value. -/
theorem tick_ok_inv (s t : ClockState) (v : Int)
    (h : tick s = (Except.ok v, t)) :
    s.initialized = true ∧ ¬ I64_MAX < s.now + (s.interval : Int) ∧
    v = s.now + (s.interval : Int) ∧ t.now = v ∧ t.interval = s.interval ∧
    t.initialized = true ∧ t.monotime0 = s.monotime0 ∧
    t.realtime0 = s.realtime0 ∧ t.done = s.done := by
  unfold tick at h
  by_cases hi : s.initialized
  · by_cases ho : I64_MAX < s.now + (s.interval : Int)
    · simp [hi, check_overflow, ho] at h
    · simp only [hi, if_true, check_overflow, ho, decide_eq_true_eq,
        if_false, Prod.mk.injEq, Except.ok.injEq] at h
      obtain ⟨hv, ht⟩ := h
      exact ⟨hi, ho, hv.symm, by rw [← ht, hv], by rw [← ht],
        by rw [← ht], by rw [← ht], by rw [← ht], by rw [← ht]⟩
  · simp [hi] at h

/-- Accumulation along n successful ticks: now advances by exactly
n * interval, and the baseline fields, interval and flags are preserved. -/
theorem tickN_ok_inv :
    ∀ (n : Nat) (s t : ClockState), tickN n s = Except.ok t →
      t.now = s.now + (n : Int) * (s.interval : Int) ∧
      t.interval = s.interval ∧ t.initialized = s.initialized ∧
      t.monotime0 = s.monotime0 ∧ t.realtime0 = s.realtime0 := by
  intro n
  induction n with
  | zero =>
    intro s t h
    simp only [tickN] at h
    obtain rfl := (Except.ok.injEq .. ▸ h)
    simp
  | succ k ih =>
    intro s t h
    simp only [tickN] at h
    cases htk : tick s with
    | mk r s1 =>
      rw [htk] at h
      cases r with
      | error e => simp at h
      | ok v =>
        simp only at h
        obtain ⟨hi, _, hv, hn1, hiv1, _, hm1, hr1, _⟩ := tick_ok_inv s s1 v htk
        obtain ⟨hn, hiv, hini, hm, hr⟩ := ih s1 t h
        refine ⟨?_, by rw [hiv, hiv1], ?_, by rw [hm, hm1], by rw [hr, hr1]⟩
        · rw [hn, hn1, hv, hiv1]
          push_cast
          ring
        · obtain ⟨_, _, _, _, _, hini1, _, _, _⟩ := tick_ok_inv s s1 v htk
          rw [hini, hini1, hi]

/-- Splitting a tick run: a + b ticks is a ticks then b ticks. -/
theorem tickN_add (a b : Nat) (s : ClockState) :
    tickN (a + b) s =
      match tickN a s with
      | Except.ok t => tickN b t
      | Except.error e => Except.error e := by
  induction a generalizing s with
  | zero => simp [tickN]
  | succ k ih =>
    have hsa : Nat.succ k + b = Nat.succ (k + b) := Nat.succ_add k b
    rw [hsa]
    simp only [tickN]
    cases htk : tick s with
    | mk r s1 =>
      cases r with
      | error e => simp
      | ok v => simpa using ih s1

end Clock

/-- C1: evaluation of the implemented setup entry at the fresh all-zero
state that begins the concrete scenario of the claim: the call returns the
failure code -1 and writes nothing, so the claimed successful calibration
with baseline monotime0 = 500000000000 never happens and no tick sequence
of the program can return 501000000000, 502000000000, 503000000000. -/
theorem clock_scenario_setup_fails :
    myst_setup_clock { realtime0 := 0, monotime0 := 0, now := 0,
                       interval := 0, done := 0 }
      = (-1, { realtime0 := 0, monotime0 := 0, now := 0,
               interval := 0, done := 0 }) :=
  rfl

/-- C2: once calibration has completed, now is non-decreasing across the
state's lifetime, and every successful tick() returns a value strictly
greater than the previous accepted now (the previous tick's return, or the
post-setup baseline for the first tick), whenever interval > 0. -/
theorem clock_monotonicity :
    (∀ (s t : ClockState) (v : Int),
       s.initialized = true →
       0 < s.interval →
       Clock.tick s = (Except.ok v, t) →
       s.now < v ∧ t.now = v) ∧
    (∀ (N M : Nat) (s sN sM : ClockState),
       s.initialized = true →
       N ≤ M →
       Clock.tickN N s = Except.ok sN →
       Clock.tickN M s = Except.ok sM →
       sN.now ≤ sM.now) := by
  constructor
  · intro s t v _ hiv htk
    obtain ⟨_, _, hv, hn1, _, _, _, _, _⟩ := Clock.tick_ok_inv s t v htk
    refine ⟨?_, hn1⟩
    rw [hv]
    have : (0 : Int) < (s.interval : Int) := by exact_mod_cast hiv
    omega
  · intro N M s sN sM _ hNM hN hM
    have hadd := Clock.tickN_add N (M - N) s
    rw [Nat.add_sub_cancel' hNM, hN] at hadd
    simp only at hadd
    rw [hM] at hadd
    obtain ⟨hn, _, _, _, _⟩ := Clock.tickN_ok_inv (M - N) sN sM hadd.symm
    rw [hn]
    have : (0 : Int) ≤ ((M - N : Nat) : Int) * (sN.interval : Int) := by
      positivity
    omega

/-- Witness for C2 at a concrete calibrated state with now = 0 and
interval = 1: the tick strictly advances now from 0 to 1. -/
theorem clock_monotonicity_witness :
    ({ realtime0 := 0, monotime0 := 0, now := 0, interval := 1,
       done := false, initialized := true } : ClockState).now < 1 ∧
    ({ realtime0 := 0, monotime0 := 0, now := 1, interval := 1,
       done := false, initialized := true } : ClockState).now = 1 :=
  clock_monotonicity.1
    { realtime0 := 0, monotime0 := 0, now := 0, interval := 1,
      done := false, initialized := true }
    { realtime0 := 0, monotime0 := 0, now := 1, interval := 1,
      done := false, initialized := true }
    1 rfl (by decide) rfl

/-- C3: for every initialized state in which now + interval exceeds the
signed 64-bit bound, tick() returns the ClockOverflow error and leaves the
state (in particular the field now) unchanged: no partial update. -/
theorem clock_tick_overflow_guard :
    ∀ s : ClockState, s.initialized = true →
      I64_MAX < s.now + (s.interval : Int) →
      Clock.tick s = (Except.error ClockError.ClockOverflow, s) := by
  intro s hi ho
  unfold Clock.tick
  simp [hi, check_overflow, ho]

/-- Witness for C3 at the boundary state of the spec scenario: interval = 1
and now = i64 MAX - interval + 1 = I64_MAX. -/
theorem clock_tick_overflow_guard_witness :
    Clock.tick { realtime0 := 0, monotime0 := 0, now := I64_MAX,
                 interval := 1, done := false, initialized := true }
      = (Except.error ClockError.ClockOverflow,
         { realtime0 := 0, monotime0 := 0, now := I64_MAX,
           interval := 1, done := false, initialized := true }) :=
  clock_tick_overflow_guard
    { realtime0 := 0, monotime0 := 0, now := I64_MAX,
      interval := 1, done := false, initialized := true }
    rfl (by decide)

/-- C4: evaluation of the implemented setup entry at a state with positive
interval 1000000000 and monotonic baseline 500000000000: the call returns
the failure code -1 rather than succeeding, and it does not set now to the
monotonic baseline (now stays 0), contradicting the claimed success path;
the interval = 0 case receives the same unconditional -1 rather than a
distinct InvalidInterval signal. -/
theorem clock_setup_stub_divergence :
    (myst_setup_clock { realtime0 := 1700000000000000000,
                        monotime0 := 500000000000, now := 0,
                        interval := 1000000000, done := 0 }).1 = -1 ∧
    (myst_setup_clock { realtime0 := 1700000000000000000,
                        monotime0 := 500000000000, now := 0,
                        interval := 1000000000, done := 0 }).2.now
      ≠ 500000000000 :=
  ⟨rfl, by decide⟩

/-- C5: divergence of the implemented guard from the claim. The source
guard _check falls through to a plain unit return when overflowed is true
(its overflow branch is empty), so it never signals any failure, whereas
the spec's Overflow Guard check_overflow maps true to the ClockOverflow
error and false to success. -/
theorem check_stub_never_fails :
    _check true = _check false ∧
    check_overflow true = Except.error ClockError.ClockOverflow ∧
    check_overflow false = Except.ok () :=
  ⟨rfl, rfl, rfl⟩

/-- C6: evaluation of two consecutive calls to the implemented setup entry
starting from the fresh all-zero state: the first call already returns the
failure code -1, so no successful first calibration exists in the program,
and the second call returns the same unconditional -1 rather than failing
with AlreadyInitialized after a successful first call. -/
theorem clock_double_setup_stub :
    (myst_setup_clock { realtime0 := 0, monotime0 := 0, now := 0,
                        interval := 0, done := 0 }).1 = -1 ∧
    (myst_setup_clock (myst_setup_clock { realtime0 := 0, monotime0 := 0,
                                          now := 0, interval := 0,
                                          done := 0 }).2).1 = -1 :=
  ⟨rfl, rfl⟩

/-- C7: the field order, widths and signedness of the source struct
clock_ctrl are exactly the ones enumerated by the spec: two signed 64-bit
baselines, a signed 64-bit now, an unsigned 64-bit interval, and a signed
32-bit status/done flag. -/
theorem clock_ctrl_layout_spec : clock_ctrl_fields = spec_clock_ctrl_fields :=
  rfl

/-- C8: the exported unit-conversion constants have exactly the values
NANO_IN_SECOND = 1000000000 and MICRO_IN_SECOND = 1000000. -/
theorem clock_constants_values :
    NANO_IN_SECOND = 1000000000 ∧ MICRO_IN_SECOND = 1000000 :=
  ⟨rfl, rfl⟩

/-- C9: the implemented FFI entry point myst_setup_clock returns -1 (the
failure code) for every input state, and never the success value 0. -/
theorem myst_setup_clock_always_fails :
    ∀ c : clock_ctrl,
      (myst_setup_clock c).1 = -1 ∧ (myst_setup_clock c).1 ≠ 0 :=
  fun c => ⟨rfl, fun h => by simp [myst_setup_clock] at h⟩

/-- C10: myst_setup_clock receives the state through a read-only pointer
and performs no writes: the state after the call equals the state before
it, field for field. -/
theorem myst_setup_clock_frame :
    ∀ c : clock_ctrl, (myst_setup_clock c).2 = c :=
  fun _ => rfl

/-- Witness for C9 at the all-zero state. -/
theorem myst_setup_clock_always_fails_witness :
    (myst_setup_clock { realtime0 := 0, monotime0 := 0, now := 0,
                        interval := 0, done := 0 }).1 = -1 ∧
    (myst_setup_clock { realtime0 := 0, monotime0 := 0, now := 0,
                        interval := 0, done := 0 }).1 ≠ 0 :=
  myst_setup_clock_always_fails
    { realtime0 := 0, monotime0 := 0, now := 0, interval := 0, done := 0 }

/-- Witness for C10 at the all-zero state. -/
theorem myst_setup_clock_frame_witness :
    (myst_setup_clock { realtime0 := 0, monotime0 := 0, now := 0,
                        interval := 0, done := 0 }).2
      = { realtime0 := 0, monotime0 := 0, now := 0, interval := 0,
          done := 0 } :=
  myst_setup_clock_frame
    { realtime0 := 0, monotime0 := 0, now := 0, interval := 0, done := 0 }
